import Mathlib

/-!
# Verification of the Sahadev Vedic-horoscope pipeline

Shallow embedding of the arithmetic core of the repository
(`astrology.py`, `yogas.py`, `engine.py`).  Python floats are modelled as
exact rationals (every finite IEEE double is a rational); Python's `%`
operator on floats with a positive modulus is `fmod` below, and
`int(x // y)` for a positive divisor is the integer floor of `x / y`.
Python datetimes are modelled as rational day counts, `timedelta(days=d)`
as addition of `d`.
-/

namespace Sahadev

/-- Python's float `%` with modulus `y`: `x - y * ⌊x / y⌋`
(sign follows the divisor, as in CPython). -/
def fmod (x y : ℚ) : ℚ := x - y * ⌊x / y⌋

lemma fmod_eq_fract (x y : ℚ) (hy : y ≠ 0) :
    fmod x y = y * Int.fract (x / y) := by
  unfold fmod Int.fract
  have : y * (x / y) = x := by field_simp
  rw [mul_sub, this]

lemma fmod_nonneg (x : ℚ) {y : ℚ} (hy : 0 < y) : 0 ≤ fmod x y := by
  rw [fmod_eq_fract x y hy.ne']
  exact mul_nonneg hy.le (Int.fract_nonneg _)

lemma fmod_lt (x : ℚ) {y : ℚ} (hy : 0 < y) : fmod x y < y := by
  rw [fmod_eq_fract x y hy.ne']
  calc y * Int.fract (x / y) < y * 1 := by
        exact mul_lt_mul_of_pos_left (Int.fract_lt_one _) hy
    _ = y := mul_one y

lemma fmod_eq_self {x y : ℚ} (h0 : 0 ≤ x) (h1 : x < y) : fmod x y = x := by
  have hy : 0 < y := lt_of_le_of_lt h0 h1
  have hfloor : ⌊x / y⌋ = 0 := by
    rw [Int.floor_eq_zero_iff]
    constructor
    · exact div_nonneg h0 hy.le
    · rw [div_lt_one hy]; exact h1
  unfold fmod
  rw [hfloor]
  simp

/-- Floor of `lon / d` lies in `[0, n)` when `0 ≤ lon < n * d`, `0 < d`. -/
lemma floor_div_bounds {lon d : ℚ} (n : ℤ) (hd : 0 < d)
    (h0 : 0 ≤ lon) (h1 : lon < n * d) :
    0 ≤ ⌊lon / d⌋ ∧ ⌊lon / d⌋ < n := by
  constructor
  · exact Int.floor_nonneg.mpr (div_nonneg h0 hd.le)
  · rw [Int.floor_lt]
    rw [div_lt_iff₀ hd]
    linarith [h1]

/-! ## A model of untyped Python values

Dynamically-typed Python data (ephemeris results, JSON payloads) is
modelled by `PyVal`.  Python tuples and lists are both `PyVal.list`
(the code under verification treats them interchangeably except for one
`isinstance(.., tuple)` test that its own comment says varies by binding);
ints and floats are both `PyVal.num`. -/
inductive PyVal where
  | none : PyVal
  | num  : ℚ → PyVal
  | str  : String → PyVal
  | list : List PyVal → PyVal
  | dict : List (String × PyVal) → PyVal

/-- Python truthiness: `None`, `0`, `""`, `[]`, `{}` are falsy. -/
def PyVal.truthy : PyVal → Bool
  | .none => false
  | .num q => q ≠ 0
  | .str s => s ≠ ""
  | .list l => !l.isEmpty
  | .dict l => !l.isEmpty

/-- `a or b` in Python: `a` if truthy, else `b`. -/
def pyOr (a b : PyVal) : PyVal := if a.truthy then a else b

/-- `d.get(k)` on a dict (returns `None` when the key is absent or the
value is not a dict). -/
def pyGet (v : PyVal) (k : String) : PyVal :=
  match v with
  | .dict l => match l.lookup k with
    | some x => x
    | Option.none => .none
  | _ => .none

/-- `d.get(k, default)`. -/
def pyGetD (v : PyVal) (k : String) (dflt : PyVal) : PyVal :=
  match v with
  | .dict l => match l.lookup k with
    | some x => x
    | Option.none => dflt
  | _ => dflt

/-- The key list of a dict (insertion order), `[]` otherwise. -/
def pyKeys : PyVal → List String
  | .dict l => l.map Prod.fst
  | _ => []

/-- The item list of a dict, `[]` otherwise. -/
def pyItems : PyVal → List (String × PyVal)
  | .dict l => l
  | _ => []

/-- `float(v)`: succeeds exactly on numbers.  (CPython also converts
numeric strings; the ephemeris structures handled here never contain
them.) -/
def asNum : PyVal → Option ℚ
  | .num q => some q
  | _ => Option.none

/-! ## astrology.py — ChartCalculator

The Swiss-Ephemeris calls (`swe.calc_ut`, `swe.houses`, `swe.houses_ex`)
are external I/O; their results enter the embedding as `PyVal` arguments
(`Option PyVal` where the call itself can raise).  Everything after the
call is repository code and is embedded below. -/

/-- The longitude-extraction ladder of `planet_positions`
(astrology.py lines 94-101): `float(res[0])`, falling back to
`float(res[0][0])`, falling back to `0.0`. -/
def extract_lon (res : PyVal) : ℚ :=
  match res with
  | .list (x :: _) =>
    match asNum x with
    | some a => a
    | Option.none =>
      match x with
      | .list (y :: _) => (asNum y).getD 0
      | _ => 0
  | _ => 0

/-- The planet → ephemeris-body table of `planet_positions`
(astrology.py lines 77-87); only the names matter to the embedding. -/
def bodies : List String :=
  ["Sun", "Moon", "Mercury", "Venus", "Mars", "Jupiter", "Saturn", "Rahu"]

/-- `ChartCalculator.planet_positions` (astrology.py lines 88-104):
for each body, extract a longitude from the ephemeris result `eph name`
and normalise it with `% 360.0`.  The per-planet `{'lon': lon}` dict is
modelled as the bare longitude. -/
def planet_positions (eph : String → PyVal) : List (String × ℚ) :=
  bodies.map (fun name => (name, fmod (extract_lon (eph name)) 360))

/-- First `int`/`float` item of a list (the inner scan of
`ascendant`, astrology.py lines 122-125). -/
def firstNum : List PyVal → Option ℚ
  | [] => Option.none
  | .num a :: _ => some a
  | _ :: rest => firstNum rest

/-- Outer scan of `ascendant` (astrology.py lines 119-125): first numeric
item found inside a list/tuple-valued part. -/
def scanParts : List PyVal → Option ℚ
  | [] => Option.none
  | .list items :: rest =>
    match firstNum items with
    | some a => some a
    | Option.none => scanParts rest
  | _ :: rest => scanParts rest

/-- `float(ascmc[0][0])` (astrology.py lines 127-131), `Option.none`
when the indexing or conversion raises. -/
def subSubNum (parts : List PyVal) : Option ℚ :=
  match parts with
  | .list (x :: _) :: _ => asNum x
  | _ => Option.none

/-- The `isinstance(ascmc,(list,tuple)) and len(ascmc)>=1 and
isinstance(ascmc[0],(int,float))` branch (astrology.py lines 133-134). -/
def headNumCheck (parts : List PyVal) : Option ℚ :=
  match parts with
  | .num a :: _ => some (fmod a 360)
  | _ => Option.none

/-- The `swe.houses` branch of `ascendant` (astrology.py lines 113-136).
`r = Option.none` models the call itself raising. -/
def tryHouses (r : Option PyVal) : Option ℚ :=
  match r with
  | Option.none => Option.none
  | some ascmc =>
    match ascmc with
    | .list parts =>
      if 2 ≤ parts.length then
        match scanParts parts with
        | some a => some (fmod a 360)
        | Option.none =>
          match subSubNum parts with
          | some a => some (fmod a 360)
          | Option.none => headNumCheck parts
      else headNumCheck parts
    | _ => Option.none

/-- The `swe.houses_ex` fallback of `ascendant`
(astrology.py lines 139-147). -/
def tryHousesEx (r : Option PyVal) : Option ℚ :=
  match r with
  | Option.none => Option.none
  | some ascmc =>
    match ascmc with
    | .list parts =>
      if 2 ≤ parts.length then
        match parts with
        | .list items :: _ =>
          match items with
          | x :: _ => (asNum x).map (fun a => fmod a 360)
          | [] => Option.none
        | x :: _ => (asNum x).map (fun a => fmod a 360)
        | [] => Option.none
      else Option.none
    | _ => Option.none

/-- `ChartCalculator.ascendant` (astrology.py lines 106-150):
try `swe.houses`, then `swe.houses_ex`, then return `0.0`. -/
def ascendant (housesRes housesExRes : Option PyVal) : ℚ :=
  match tryHouses housesRes with
  | some a => a
  | Option.none =>
    match tryHousesEx housesExRes with
    | some a => a
    | Option.none => 0

/-- One planet's record in the rasi chart
(`{'lon': .., 'rasi': .., 'degree_in_sign': ..}`). -/
structure RasiInfo where
  lon : ℚ
  rasi : ℤ
  degree_in_sign : ℚ
deriving DecidableEq

/-- The rasi chart (`{'planets': .., 'asc': ..}`). -/
structure RasiChart where
  planets : List (String × RasiInfo)
  asc : ℚ
deriving DecidableEq

/-- `ChartCalculator.get_rasi_chart` (astrology.py lines 152-163):
`rasi = int(lon // 30) + 1`, `degree_in_sign = lon % 30`. -/
def get_rasi_chart (eph : String → PyVal) (housesRes housesExRes : Option PyVal) :
    RasiChart :=
  { planets := (planet_positions eph).map
      (fun pl => (pl.1,
        RasiInfo.mk pl.2 (⌊pl.2 / 30⌋ + 1) (fmod pl.2 30)))
    asc := ascendant housesRes housesExRes }

/-- The navamsa partition size `part = 30.0 / 9.0`
(astrology.py line 176). -/
def navamsa_part : ℚ := 30 / 9

/-- `nav_index = int((lon % 30) // part)` (astrology.py line 177). -/
def nav_index (lon : ℚ) : ℤ := ⌊fmod lon 30 / navamsa_part⌋

/-- `nav_sign = ((int(lon // 30) * 9) + nav_index) % 12 + 1`
(astrology.py line 178); the `%` here is Python int mod = `Int.emod`. -/
def nav_sign (lon : ℚ) : ℤ := (⌊lon / 30⌋ * 9 + nav_index lon) % 12 + 1

/-- One planet's record in the navamsa chart. -/
structure NavInfo where
  lon : ℚ
  nav_sign : ℤ
deriving DecidableEq

/-- `ChartCalculator.get_navamsa_chart` (astrology.py lines 165-180). -/
def get_navamsa_chart (eph : String → PyVal) (housesRes housesExRes : Option PyVal) :
    List (String × NavInfo) :=
  (get_rasi_chart eph housesRes housesExRes).planets.map
    (fun pl => (pl.1, { lon := pl.2.lon, nav_sign := nav_sign pl.2.lon }))

/-! ## yogas.py — nakshatras, Vimshottari dasa, yoga heuristics -/

/-- `VIM_ORDER` (yogas.py line 13). -/
def VIM_ORDER : List String :=
  ["Ketu", "Venus", "Sun", "Moon", "Mars", "Rahu", "Jupiter", "Saturn", "Mercury"]

/-- `VIM_YEARS` (yogas.py line 14), as a total lookup; the dict is only
ever indexed with members of `VIM_ORDER`. -/
def VIM_YEARS : String → ℚ
  | "Ketu" => 7
  | "Venus" => 20
  | "Sun" => 6
  | "Moon" => 10
  | "Mars" => 7
  | "Rahu" => 18
  | "Jupiter" => 16
  | "Saturn" => 19
  | "Mercury" => 17
  | _ => 0

/-- `_deg_to_nak_index` (yogas.py lines 16-25):
`span = 360/27`, `idx = int(lon // span) % 27`,
`fraction = (lon % span) / span`. -/
def _deg_to_nak_index (lon : ℚ) : ℤ × ℚ :=
  (⌊lon / (360 / 27 : ℚ)⌋ % 27, fmod lon (360 / 27) / (360 / 27))

/-- Python `round(x, 3)` modelled as round-half-up at the third decimal.
(CPython rounds the underlying double half-to-even; no claim depends on
this display-only field, only on its determinism.) -/
def round3 (x : ℚ) : ℚ := (⌊x * 1000 + 1 / 2⌋ : ℚ) / 1000

/-- One mahadasha period of the heuristic timeline
(`{"name", "start", "end", "duration_years"}`); instants are rational
day counts. -/
structure DasaPeriod where
  name : String
  start : ℚ
  end_ : ℚ
  duration_years : ℚ
deriving DecidableEq

/-- Result of the dasa computation.  `remaining_years = Option.none`
models the no-Moon dict, which carries no `remaining_years` key. -/
structure DasaResult where
  current : String
  remaining_years : Option ℚ
  sequence : List DasaPeriod
deriving DecidableEq

/-- The `for i in range(1, 7)` loop of
`compute_vimshottari_dasa_heuristic` (yogas.py lines 63-69): `n` more
periods starting at list index `idx` and instant `running_start`;
`timedelta(days=dur*365.25)` becomes `+ dur * (1461/4)` days. -/
def dasaLoop : ℕ → ℕ → ℚ → List DasaPeriod
  | 0, _, _ => []
  | n + 1, idx, running_start =>
    let lord := VIM_ORDER.getD idx ""
    let dur := VIM_YEARS lord
    let running_end := running_start + dur * (1461 / 4)
    ⟨lord, running_start, running_end, dur⟩ ::
      dasaLoop n ((idx + 1) % VIM_ORDER.length) running_end

/-- Body of `compute_vimshottari_dasa_heuristic` after the nakshatra
lookup (yogas.py lines 36-75), as a function of the already-reduced
position `k` of the starting lord in `VIM_ORDER`
(`start_lord = VIM_ORDER[nak_idx % len(VIM_ORDER)]`). -/
def dasaFromIdx (k : ℕ) (frac : ℚ) (birth_dt : ℚ) : DasaResult :=
  let start_lord := VIM_ORDER.getD k ""
  let remaining_fraction := 1 - frac
  let full_years := VIM_YEARS start_lord
  let remaining_years := full_years * remaining_fraction
  let start_index := VIM_ORDER.indexOf start_lord
  let cur_start := birth_dt
  let cur_end := cur_start + remaining_years * (1461 / 4)
  { current := start_lord ++ " Mahadasha (approx)"
    remaining_years := some (round3 remaining_years)
    sequence :=
      ⟨start_lord, cur_start, cur_end, remaining_years⟩ ::
        dasaLoop 6 ((start_index + 1) % VIM_ORDER.length) cur_end }

/-- Body of `compute_vimshottari_dasa_heuristic` as a function of the
nakshatra index and intra-nakshatra fraction. -/
def dasaFrom (nak_idx : ℤ) (frac : ℚ) (birth_dt : ℚ) : DasaResult :=
  dasaFromIdx (nak_idx % (VIM_ORDER.length : ℤ)).toNat frac birth_dt

/-- `compute_vimshottari_dasa_heuristic` (yogas.py lines 27-75).
`birth_dt` is the supplied birth datetime (when the Python argument is
`None` the source substitutes `datetime.utcnow()`; the ambient clock
value is passed here explicitly). -/
def compute_vimshottari_dasa_heuristic (moon_lon : ℚ) (birth_dt : ℚ) : DasaResult :=
  dasaFrom (_deg_to_nak_index moon_lon).1 (_deg_to_nak_index moon_lon).2 birth_dt

/-- `_angle_distance` (yogas.py lines 78-81):
`abs((a - b + 180) % 360 - 180)`. -/
def _angle_distance (a b : ℚ) : ℚ := |fmod (a - b + 180) 360 - 180|

/-- Deterministic stand-in for CPython's fixed-point float formatting
inside f-strings (`:.2f`, `:.1f`).  The rendered digits are not
reproduced exactly; every property proved below needs only that the
text is a function of the value. -/
def fmtQ (x : ℚ) : String := toString x

/-- The order-preserving keep-first dedupe at the end of
`detect_common_yogas` (yogas.py lines 123-130). -/
def dedupeKeepFirst : List String → List String → List String
  | _, [] => []
  | seen, s :: rest =>
    if s ∈ seen then dedupeKeepFirst seen rest
    else s :: dedupeKeepFirst (s :: seen) rest

/-- `detect_common_yogas` (yogas.py lines 83-130) over a well-formed
rasi chart (the documented input, `ChartCalculator.get_rasi_chart()`
output).  The `info.get("degree_in_sign") or (info.get("lon",0) % 30)`
line falls back on `lon % 30` when `degree_in_sign` is the falsy `0`. -/
def detect_common_yogas (rasi : RasiChart) : List String :=
  let p := rasi.planets
  let gaja :=
    match p.lookup "Jupiter", p.lookup "Moon" with
    | some j, some m =>
      let d := _angle_distance j.lon m.lon
      if d ≤ 6 ∨ |d - 120| ≤ 6 ∨ |d - 240| ≤ 6 then
        ["Gajakesari Yoga (heuristic)"]
      else []
    | _, _ => []
  let chandra :=
    match p.lookup "Moon", p.lookup "Mars" with
    | some m, some ma =>
      if _angle_distance m.lon ma.lon ≤ 3 then
        ["Chandra-Mangal Yoga (heuristic)"]
      else []
    | _, _ => []
  let maha :=
    match p.lookup "Venus" with
    | some v =>
      if v.rasi = 1 ∨ v.rasi = 5 ∨ v.rasi = 9 then
        ["Mahalakshmi Yoga (heuristic)"]
      else []
    | Option.none => []
  let kendra :=
    (["Sun", "Moon", "Mercury", "Venus", "Jupiter", "Mars", "Saturn"]).filterMap
      (fun lord =>
        match p.lookup lord with
        | some info =>
          if info.rasi = 1 ∨ info.rasi = 4 ∨ info.rasi = 7 ∨ info.rasi = 10 then
            some ("Possible Raja-yoga influence (" ++ lord ++ " in kendra)")
          else Option.none
        | Option.none => Option.none)
  let neecha :=
    p.filterMap (fun pl =>
      let deg := if pl.2.degree_in_sign ≠ 0 then pl.2.degree_in_sign
                 else fmod pl.2.lon 30
      if deg < 2 then
        some ("Possible Neecha (weak) placement: " ++ pl.1 ++ " (~" ++
          fmtQ deg ++ "°) — may require detailed inspection")
      else Option.none)
  dedupeKeepFirst [] (gaja ++ chandra ++ maha ++ kendra ++ neecha)

/-- The analysis result `{'yogas': .., 'dasas': ..}`. -/
structure Analysis where
  yogas : List String
  dasas : DasaResult
deriving DecidableEq

/-- `analyze_chart_for_yogas_and_dasas` (yogas.py lines 132-146); the
unused `nav` argument is dropped. -/
def analyze_chart_for_yogas_and_dasas (rasi : RasiChart) (birth_dt : ℚ) :
    Analysis :=
  let yogas := detect_common_yogas rasi
  match rasi.planets.lookup "Moon" with
  | some moon =>
    { yogas := yogas
      dasas := compute_vimshottari_dasa_heuristic moon.lon birth_dt }
  | Option.none =>
    { yogas := yogas
      dasas := { current := "Unknown (no Moon position)"
                 remaining_years := Option.none
                 sequence := [] } }

/-! ## engine.py — HoroscopeEngine -/

/-- `HoroscopeEngine.format_structured` (engine.py lines 137-150).
Note the `deg` field uses Python `or`: a falsy `degree_in_sign`
(in particular `0`) falls through to `info.get("deg")`. -/
def format_structured (rasi nav meta : PyVal) : PyVal :=
  .dict
    [("meta", meta),
     ("rasi", .dict ((pyItems (pyGetD rasi "planets" (.dict []))).map
        (fun pi => (pi.1, PyVal.dict
          [("lon", pyGet pi.2 "lon"),
           ("rasi", pyGet pi.2 "rasi"),
           ("deg", pyOr (pyGet pi.2 "degree_in_sign") (pyGet pi.2 "deg"))])))),
     ("asc", pyGet rasi "asc"),
     ("navamsa", pyGet nav "navamsa")]

/-- `engine._extract_json_from_text` (engine.py lines 68-94).  The
source returns `None` on empty (or `None`) input — the `if not text`
guard — and otherwise attempts `json.loads` followed by a
brace-matching rescue scan; both parsing stages call the external
`json`/`re` libraries and are abstracted as `scan`. -/
def _extract_json_from_text (scan : String → Option PyVal) (text : String) :
    Option PyVal :=
  if text = "" then Option.none else scan text

/-- Deterministic rendering of a value interpolated into an f-string.
CPython's exact digit output is not reproduced; the properties proved
below depend only on the rendering being a function of the value. -/
def pyShow : PyVal → String
  | .none => "None"
  | .num q => fmtQ q
  | .str s => s
  | .list _ => "<list>"
  | .dict _ => "<dict>"

/-- One bullet of `_fallback_text` (engine.py lines 266-274):
`deg = info.get("deg")`, computing `float(info.get("lon", 0)) % 30`
(or `0.0` on failure) when that is `None`, then the f-string
`f"{p}: sign {r}, {deg:.1f}Â°"` (the mojibake `Â°` is the source's). -/
def fallbackBullet (p : String) (info : PyVal) : String :=
  let r := pyGet info "rasi"
  let deg : PyVal :=
    match pyGet info "deg" with
    | .none =>
      match asNum (pyGetD info "lon" (.num 0)) with
      | some q => .num (fmod q 30)
      | Option.none => .num 0
    | v => v
  p ++ ": sign " ++ pyShow r ++ ", " ++ pyShow deg ++ "Â°"

/-- The bullet loop of `_fallback_text` (engine.py lines 265-276):
append a bullet per planet, stopping once six are collected. -/
def fallbackBullets : List (String × PyVal) → List String → List String
  | [], acc => acc
  | (p, info) :: rest, acc =>
    let acc2 := acc ++ [fallbackBullet p info]
    if 6 ≤ acc2.length then acc2 else fallbackBullets rest acc2

/-- `HoroscopeEngine._fallback_text` (engine.py lines 262-282). -/
def _fallback_text (structured : PyVal) : PyVal :=
  let rasi := pyGetD structured "rasi" (.dict [])
  let headline := "Basic horoscope overview (local fallback)"
  let bullets := fallbackBullets (pyItems rasi) []
  let narrative := headline ++ "\n\n" ++ "Key placements: " ++
    String.intercalate "; " bullets ++ ".\n\n" ++
    "This is an automated fallback reading."
  .dict
    [("headline", .str headline),
     ("bullets", .list (bullets.map .str)),
     ("narrative", .str narrative),
     ("yogas", .list []),
     ("dasas", .dict [])]

/-- Python string `or`: the first operand if nonempty. -/
def pyOrStr (a b : String) : String := if a = "" then b else a

/-- `HoroscopeEngine.generate_analysis` (engine.py lines 222-260).
The LLM transport `_call_llm` is external I/O, modelled as an oracle
from attempt number to the optional reply text (`Option.none` = no
client configured or every SDK call raised); `asksJson` abstracts the
regex test `_model_requests_json`.  Prompt construction
(`_build_prompt`) does not influence the returned value and is left
out. -/
def generate_analysis (scan : String → Option PyVal) (asksJson : String → Bool)
    (callLLM : ℕ → Option String) (structured : PyVal) : PyVal :=
  let text := callLLM 0
  let parsed := _extract_json_from_text scan (text.getD "")
  if (parsed.map PyVal.truthy).getD false then parsed.getD .none
  else if (text.getD "") ≠ "" ∧ (asksJson (text.getD "") = true ∨ parsed.isNone = true) then
    let text2 := callLLM 1
    let parsed2 := _extract_json_from_text scan (text2.getD "")
    if (parsed2.map PyVal.truthy).getD false then parsed2.getD .none
    else .dict [("narrative", .str
      (pyOrStr (text2.getD "") (pyOrStr (text.getD "") "LLM produced no usable output.")))]
  else _fallback_text structured

/-! ## Theorems -/

/-- **C1**: for every planet longitude `lon ∈ [0, 360)` produced by
`planet_positions`, `get_rasi_chart` assigns that planet the sign
`rasi = ⌊lon/30⌋ + 1 ∈ 1..12` and `degree_in_sign = lon % 30 ∈ [0, 30)`,
leaving the stored `lon` unchanged. -/
theorem get_rasi_chart_spec (eph : String → PyVal)
    (housesRes housesExRes : Option PyVal) (p : String) (lon : ℚ)
    (hmem : (p, lon) ∈ planet_positions eph)
    (h0 : 0 ≤ lon) (h1 : lon < 360) :
    (p, RasiInfo.mk lon (⌊lon / 30⌋ + 1) (fmod lon 30)) ∈
      (get_rasi_chart eph housesRes housesExRes).planets ∧
    1 ≤ ⌊lon / 30⌋ + 1 ∧ ⌊lon / 30⌋ + 1 ≤ 12 ∧
    0 ≤ fmod lon 30 ∧ fmod lon 30 < 30 := by
  have hb := @floor_div_bounds lon 30 12 (by norm_num) h0
    (by push_cast; linarith)
  refine ⟨?_, by omega, by omega, fmod_nonneg _ (by norm_num),
    fmod_lt _ (by norm_num)⟩
  unfold get_rasi_chart
  exact List.mem_map.mpr ⟨(p, lon), hmem, rfl⟩

theorem get_rasi_chart_spec_witness :
    (("Sun", (100 : ℚ)) ∈ planet_positions (fun _ => .list [.num 100]) ∧
      (0 : ℚ) ≤ 100 ∧ (100 : ℚ) < 360) ∧
    (("Sun", RasiInfo.mk 100 (⌊(100 : ℚ) / 30⌋ + 1) (fmod 100 30)) ∈
        (get_rasi_chart (fun _ => .list [.num 100]) Option.none Option.none).planets ∧
      1 ≤ ⌊(100 : ℚ) / 30⌋ + 1 ∧ ⌊(100 : ℚ) / 30⌋ + 1 ≤ 12 ∧
      0 ≤ fmod (100 : ℚ) 30 ∧ fmod (100 : ℚ) 30 < 30) :=
  ⟨⟨by norm_num [planet_positions, bodies, extract_lon, asNum, fmod],
    by norm_num, by norm_num⟩,
   get_rasi_chart_spec (fun _ => .list [.num 100]) Option.none Option.none
     "Sun" 100
     (by norm_num [planet_positions, bodies, extract_lon, asNum, fmod])
     (by norm_num) (by norm_num)⟩

/-- **C2**: for every longitude `lon ∈ [0, 360)`, `get_navamsa_chart`
computes the navamsa index within the sign as
`⌊(lon % 30) / (30/9)⌋ ∈ 0..8` and the absolute navamsa sign as
`((⌊lon/30⌋ * 9 + index) % 12) + 1 ∈ 1..12`. -/
theorem get_navamsa_chart_spec (eph : String → PyVal)
    (housesRes housesExRes : Option PyVal) (p : String) (lon : ℚ)
    (hmem : (p, lon) ∈ planet_positions eph)
    (h0 : 0 ≤ lon) (h1 : lon < 360) :
    nav_index lon = ⌊fmod lon 30 / (30 / 9 : ℚ)⌋ ∧
    0 ≤ nav_index lon ∧ nav_index lon ≤ 8 ∧
    nav_sign lon = (⌊lon / 30⌋ * 9 + nav_index lon) % 12 + 1 ∧
    1 ≤ nav_sign lon ∧ nav_sign lon ≤ 12 ∧
    (p, NavInfo.mk lon (nav_sign lon)) ∈
      get_navamsa_chart eph housesRes housesExRes := by
  have hpart : (0 : ℚ) < navamsa_part := by norm_num [navamsa_part]
  have hidx0 := @floor_div_bounds (fmod lon 30) navamsa_part 9
    hpart (fmod_nonneg _ (by norm_num))
    (by
      have := @fmod_lt lon 30 (by norm_num)
      push_cast
      rw [navamsa_part]
      linarith)
  have hidx : 0 ≤ nav_index lon ∧ nav_index lon < 9 := by
    unfold nav_index; exact hidx0
  have hmod0 : 0 ≤ (⌊lon / 30⌋ * 9 + nav_index lon) % 12 :=
    Int.emod_nonneg _ (by norm_num)
  have hmod1 : (⌊lon / 30⌋ * 9 + nav_index lon) % 12 < 12 :=
    Int.emod_lt_of_pos _ (by norm_num)
  refine ⟨rfl, hidx.1, by omega, rfl, ?_, ?_, ?_⟩
  · unfold nav_sign; omega
  · unfold nav_sign; omega
  · unfold get_navamsa_chart
    exact List.mem_map.mpr
      ⟨(p, RasiInfo.mk lon (⌊lon / 30⌋ + 1) (fmod lon 30)),
       (get_rasi_chart_spec eph housesRes housesExRes p lon hmem h0 h1).1, rfl⟩

theorem get_navamsa_chart_spec_witness :
    (("Sun", (100 : ℚ)) ∈ planet_positions (fun _ => .list [.num 100]) ∧
      (0 : ℚ) ≤ 100 ∧ (100 : ℚ) < 360) ∧
    (nav_index 100 = ⌊fmod (100 : ℚ) 30 / (30 / 9 : ℚ)⌋ ∧
      0 ≤ nav_index 100 ∧ nav_index 100 ≤ 8 ∧
      nav_sign 100 = (⌊(100 : ℚ) / 30⌋ * 9 + nav_index 100) % 12 + 1 ∧
      1 ≤ nav_sign 100 ∧ nav_sign 100 ≤ 12 ∧
      ("Sun", NavInfo.mk 100 (nav_sign 100)) ∈
        get_navamsa_chart (fun _ => .list [.num 100]) Option.none Option.none) :=
  ⟨⟨by norm_num [planet_positions, bodies, extract_lon, asNum, fmod],
    by norm_num, by norm_num⟩,
   get_navamsa_chart_spec (fun _ => .list [.num 100]) Option.none Option.none
     "Sun" 100
     (by norm_num [planet_positions, bodies, extract_lon, asNum, fmod])
     (by norm_num) (by norm_num)⟩

/-- **C3**: for every longitude `lon ∈ [0, 360)`, `_deg_to_nak_index`
returns the nakshatra index `⌊lon / (360/27)⌋ ∈ 0..26` together with the
fraction `(lon % (360/27)) / (360/27) ∈ [0, 1)` into that nakshatra. -/
theorem deg_to_nak_index_spec (lon : ℚ) (h0 : 0 ≤ lon) (h1 : lon < 360) :
    (_deg_to_nak_index lon).1 = ⌊lon / (360 / 27 : ℚ)⌋ ∧
    0 ≤ (_deg_to_nak_index lon).1 ∧ (_deg_to_nak_index lon).1 ≤ 26 ∧
    (_deg_to_nak_index lon).2 = fmod lon (360 / 27) / (360 / 27) ∧
    0 ≤ (_deg_to_nak_index lon).2 ∧ (_deg_to_nak_index lon).2 < 1 := by
  have hspan : (0 : ℚ) < 360 / 27 := by norm_num
  have hb := @floor_div_bounds lon (360 / 27) 27 hspan h0
    (by push_cast; linarith)
  have hid : ⌊lon / (360 / 27 : ℚ)⌋ % 27 = ⌊lon / (360 / 27 : ℚ)⌋ :=
    Int.emod_eq_of_lt hb.1 hb.2
  refine ⟨?_, ?_, ?_, rfl, ?_, ?_⟩
  · exact hid
  · unfold _deg_to_nak_index; rw [hid]; exact hb.1
  · unfold _deg_to_nak_index; rw [hid]; omega
  · exact div_nonneg (fmod_nonneg _ hspan) hspan.le
  · unfold _deg_to_nak_index
    rw [div_lt_one hspan]
    exact fmod_lt _ hspan

theorem deg_to_nak_index_spec_witness :
    ((0 : ℚ) ≤ 100 ∧ (100 : ℚ) < 360) ∧
    ((_deg_to_nak_index 100).1 = ⌊(100 : ℚ) / (360 / 27 : ℚ)⌋ ∧
      0 ≤ (_deg_to_nak_index 100).1 ∧ (_deg_to_nak_index 100).1 ≤ 26 ∧
      (_deg_to_nak_index 100).2 = fmod 100 (360 / 27) / (360 / 27) ∧
      0 ≤ (_deg_to_nak_index 100).2 ∧ (_deg_to_nak_index 100).2 < 1) :=
  ⟨⟨by norm_num, by norm_num⟩,
   deg_to_nak_index_spec 100 (by norm_num) (by norm_num)⟩

/-- **C9**: `_angle_distance` is symmetric in its two arguments and its
value always lies in `[0, 180]`. -/
theorem angle_distance_spec (a b : ℚ) :
    _angle_distance a b = _angle_distance b a ∧
    0 ≤ _angle_distance a b ∧ _angle_distance a b ≤ 180 := by
  have h360 : (0 : ℚ) < 360 := by norm_num
  refine ⟨?_, abs_nonneg _, ?_⟩
  · unfold _angle_distance
    rw [fmod_eq_fract _ _ h360.ne', fmod_eq_fract _ _ h360.ne']
    have hsum : (b - a + 180) / 360 = 1 - (a - b + 180) / 360 := by ring
    rw [hsum]
    set s := (a - b + 180) / 360 with hs
    by_cases h : Int.fract s = 0
    · have h2 : Int.fract (1 - s) = 0 := by
        have he : (1 : ℚ) - s = -s + (1 : ℤ) := by push_cast; ring
        rw [he, Int.fract_add_int, Int.fract_neg_eq_zero]
        exact h
      rw [h, h2]
    · have h2 : Int.fract (1 - s) = 1 - Int.fract s := by
        have he : (1 : ℚ) - s = -s + (1 : ℤ) := by push_cast; ring
        rw [he, Int.fract_add_int, Int.fract_neg h]
      rw [h2]
      have he : (360 : ℚ) * (1 - Int.fract s) - 180 =
          -(360 * Int.fract s - 180) := by ring
      rw [he, abs_neg]
  · unfold _angle_distance
    have hn := fmod_nonneg (a - b + 180) h360
    have hl := fmod_lt (a - b + 180) h360
    rw [abs_le]
    constructor <;> linarith

/-- Failure of both numeric-extraction attempts of `planet_positions`
(astrology.py lines 94-101): `float(res[0])` raises and so does
`float(res[0][0])`. -/
def lonExtractionFails (res : PyVal) : Prop :=
  match res with
  | .list (.num _ :: _) => False
  | .list (.list (y :: _) :: _) => asNum y = Option.none
  | _ => True

lemma extract_lon_of_fails {res : PyVal} (h : lonExtractionFails res) :
    extract_lon res = 0 := by
  unfold lonExtractionFails at h
  unfold extract_lon
  split at h
  · exact absurd h not_false
  · rename_i y _ _
    cases y <;> simp_all [asNum]
  · rename_i hx1 hx2
    cases res with
    | list l =>
      cases l with
      | nil => rfl
      | cons x rest =>
        cases x with
        | num q => exact absurd rfl (hx1 q rest)
        | list inner =>
          cases inner with
          | nil => rfl
          | cons y irest => exact absurd rfl (hx2 y irest rest)
        | none => rfl
        | str s => rfl
        | dict d => rfl
    | none => rfl
    | num q => rfl
    | str s => rfl
    | dict d => rfl

lemma headNumCheck_range {parts : List PyVal} {a : ℚ}
    (h : headNumCheck parts = some a) : 0 ≤ a ∧ a < 360 := by
  unfold headNumCheck at h
  split at h
  · obtain rfl : a = fmod _ 360 := (Option.some.injEq _ _).mp h.symm
    exact ⟨fmod_nonneg _ (by norm_num), fmod_lt _ (by norm_num)⟩
  · exact absurd h (by simp)

lemma tryHouses_range {r : Option PyVal} {a : ℚ}
    (h : tryHouses r = some a) : 0 ≤ a ∧ a < 360 := by
  unfold tryHouses at h
  split at h
  · exact absurd h (by simp)
  · split at h
    · split at h
      · split at h
        · obtain rfl : a = fmod _ 360 := (Option.some.injEq _ _).mp h.symm
          exact ⟨fmod_nonneg _ (by norm_num), fmod_lt _ (by norm_num)⟩
        · split at h
          · obtain rfl : a = fmod _ 360 := (Option.some.injEq _ _).mp h.symm
            exact ⟨fmod_nonneg _ (by norm_num), fmod_lt _ (by norm_num)⟩
          · exact headNumCheck_range h
      · exact headNumCheck_range h
    · exact absurd h (by simp)

lemma tryHousesEx_range {r : Option PyVal} {a : ℚ}
    (h : tryHousesEx r = some a) : 0 ≤ a ∧ a < 360 := by
  unfold tryHousesEx at h
  split at h
  · exact absurd h (by simp)
  · split at h
    · split at h
      · split at h
        · split at h
          · obtain ⟨q, _, rfl⟩ := Option.map_eq_some'.mp h
            exact ⟨fmod_nonneg _ (by norm_num), fmod_lt _ (by norm_num)⟩
          · exact absurd h (by simp)
        · obtain ⟨q, _, rfl⟩ := Option.map_eq_some'.mp h
          exact ⟨fmod_nonneg _ (by norm_num), fmod_lt _ (by norm_num)⟩
        · exact absurd h (by simp)
      · exact absurd h (by simp)
    · exact absurd h (by simp)

/-- **C7**: failed longitude extraction silently becomes `0.0` in
`planet_positions`; when both house computations fail, `ascendant`
returns `0.0`; and every longitude produced by `planet_positions` and
by `ascendant` lies in `[0, 360)`. -/
theorem planet_positions_ascendant_spec (eph : String → PyVal)
    (housesRes housesExRes : Option PyVal) :
    (∀ p lon, (p, lon) ∈ planet_positions eph → 0 ≤ lon ∧ lon < 360) ∧
    (∀ p, p ∈ bodies → lonExtractionFails (eph p) →
      (p, (0 : ℚ)) ∈ planet_positions eph) ∧
    (0 ≤ ascendant housesRes housesExRes ∧
      ascendant housesRes housesExRes < 360) ∧
    (tryHouses housesRes = Option.none → tryHousesEx housesExRes = Option.none →
      ascendant housesRes housesExRes = 0) := by
  refine ⟨?_, ?_, ?_, ?_⟩
  · intro p lon hmem
    unfold planet_positions at hmem
    obtain ⟨name, _, heq⟩ := List.mem_map.mp hmem
    injection heq with h1 h2
    subst h1
    subst h2
    exact ⟨fmod_nonneg _ (by norm_num), fmod_lt _ (by norm_num)⟩
  · intro p hp hfail
    unfold planet_positions
    refine List.mem_map.mpr ⟨p, hp, ?_⟩
    rw [extract_lon_of_fails hfail, fmod_eq_self le_rfl (by norm_num)]
  · unfold ascendant
    split
    · exact tryHouses_range (by assumption)
    · split
      · exact tryHousesEx_range (by assumption)
      · norm_num
  · intro h1 h2
    unfold ascendant
    rw [h1, h2]

theorem planet_positions_ascendant_spec_witness :
    (("Sun", (0 : ℚ)) ∈ planet_positions (fun _ => .str "err")) ∧
    ascendant Option.none Option.none = 0 ∧
    (0 ≤ ascendant Option.none Option.none ∧
      ascendant Option.none Option.none < 360) := by
  have h := planet_positions_ascendant_spec (fun _ => .str "err")
    Option.none Option.none
  exact ⟨h.2.1 "Sun" (by norm_num [bodies]) trivial, h.2.2.2 rfl rfl, h.2.2.1⟩

lemma dasaFromIdx_spec (k : ℕ) (hk : k < 9) (frac bdt : ℚ) :
    (dasaFromIdx k frac bdt).sequence.length = 7 ∧
    (dasaFromIdx k frac bdt).sequence.map DasaPeriod.name =
      (List.range 7).map (fun i => VIM_ORDER.getD ((k + i) % 9) "") ∧
    (∀ pd ∈ (dasaFromIdx k frac bdt).sequence.tail,
      pd.duration_years = VIM_YEARS pd.name) ∧
    (dasaFromIdx k frac bdt).sequence.Chain' (fun x y => y.start = x.end_) ∧
    (dasaFromIdx k frac bdt).sequence.head? = some
      ⟨VIM_ORDER.getD k "", bdt,
        bdt + VIM_YEARS (VIM_ORDER.getD k "") * (1 - frac) * (1461 / 4),
        VIM_YEARS (VIM_ORDER.getD k "") * (1 - frac)⟩ := by
  interval_cases k <;>
  · refine ⟨rfl, rfl, ?_, ?_, rfl⟩
    · intro pd hpd
      simp only [dasaFromIdx, dasaLoop, List.tail, List.mem_cons,
        List.not_mem_nil, or_false] at hpd
      rcases hpd with rfl | rfl | rfl | rfl | rfl | rfl <;> rfl
    · simp only [dasaFromIdx, dasaLoop]
      simp [List.chain'_cons]

lemma nak_mod_toNat_lt (j : ℤ) : (j % 9).toNat < 9 := by
  have h1 := Int.emod_lt_of_pos j (by norm_num : (0 : ℤ) < 9)
  have h2 := Int.emod_nonneg j (by norm_num : (9 : ℤ) ≠ 0)
  omega

/-- **C4**: for every Moon longitude in `[0, 360)`, the heuristic
timeline has exactly 7 mahadasha periods, their lords follow the
`VIM_ORDER` rotation cyclically starting from the lord at the Moon's
nakshatra index mod 9, every period after the first carries its lord's
full `VIM_YEARS` duration, and every period starts at the instant the
previous one ends. -/
theorem compute_vimshottari_spec (moon_lon birth_dt : ℚ)
    (_h0 : 0 ≤ moon_lon) (_h1 : moon_lon < 360) :
    (compute_vimshottari_dasa_heuristic moon_lon birth_dt).sequence.length = 7 ∧
    (compute_vimshottari_dasa_heuristic moon_lon birth_dt).sequence.map
        DasaPeriod.name =
      (List.range 7).map (fun i =>
        VIM_ORDER.getD ((((_deg_to_nak_index moon_lon).1 % 9).toNat + i) % 9) "") ∧
    (∀ pd ∈ (compute_vimshottari_dasa_heuristic moon_lon birth_dt).sequence.tail,
      pd.duration_years = VIM_YEARS pd.name) ∧
    (compute_vimshottari_dasa_heuristic moon_lon birth_dt).sequence.Chain'
      (fun x y => y.start = x.end_) := by
  have hlen : (VIM_ORDER.length : ℤ) = 9 := by norm_num [VIM_ORDER]
  have hs := dasaFromIdx_spec (((_deg_to_nak_index moon_lon).1 % 9).toNat)
    (nak_mod_toNat_lt _) (_deg_to_nak_index moon_lon).2 birth_dt
  unfold compute_vimshottari_dasa_heuristic dasaFrom
  rw [hlen]
  exact ⟨hs.1, hs.2.1, hs.2.2.1, hs.2.2.2.1⟩

theorem compute_vimshottari_spec_witness :
    ((0 : ℚ) ≤ 100 ∧ (100 : ℚ) < 360) ∧
    ((compute_vimshottari_dasa_heuristic 100 0).sequence.length = 7 ∧
     (compute_vimshottari_dasa_heuristic 100 0).sequence.map DasaPeriod.name =
       (List.range 7).map (fun i =>
         VIM_ORDER.getD ((((_deg_to_nak_index 100).1 % 9).toNat + i) % 9) "") ∧
     (∀ pd ∈ (compute_vimshottari_dasa_heuristic 100 0).sequence.tail,
       pd.duration_years = VIM_YEARS pd.name) ∧
     (compute_vimshottari_dasa_heuristic 100 0).sequence.Chain'
       (fun x y => y.start = x.end_)) :=
  ⟨⟨by norm_num, by norm_num⟩,
   compute_vimshottari_spec 100 0 (by norm_num) (by norm_num)⟩

lemma VIM_YEARS_getD_pos (k : ℕ) (hk : k < 9) :
    0 < VIM_YEARS (VIM_ORDER.getD k "") := by
  interval_cases k <;> norm_num [VIM_ORDER, VIM_YEARS]

/-- **C8**: for every Moon longitude in `[0, 360)`, the first period of
the heuristic timeline has `duration_years` strictly positive and at
most its lord's full `VIM_YEARS` duration, being
`full_years * (1 - fraction)` with the intra-nakshatra fraction in
`[0, 1)`. -/
theorem first_dasa_duration_spec (moon_lon birth_dt : ℚ)
    (h0 : 0 ≤ moon_lon) (h1 : moon_lon < 360) :
    ∃ pd, (compute_vimshottari_dasa_heuristic moon_lon birth_dt).sequence.head? =
        some pd ∧
      pd.duration_years =
        VIM_YEARS pd.name * (1 - (_deg_to_nak_index moon_lon).2) ∧
      0 < pd.duration_years ∧ pd.duration_years ≤ VIM_YEARS pd.name := by
  have hlen : (VIM_ORDER.length : ℤ) = 9 := by norm_num [VIM_ORDER]
  have hs := dasaFromIdx_spec (((_deg_to_nak_index moon_lon).1 % 9).toNat)
    (nak_mod_toNat_lt _) (_deg_to_nak_index moon_lon).2 birth_dt
  have hfrac := deg_to_nak_index_spec moon_lon h0 h1
  have hY := VIM_YEARS_getD_pos (((_deg_to_nak_index moon_lon).1 % 9).toNat)
    (nak_mod_toNat_lt _)
  refine ⟨⟨VIM_ORDER.getD (((_deg_to_nak_index moon_lon).1 % 9).toNat) "",
      birth_dt,
      birth_dt +
        VIM_YEARS (VIM_ORDER.getD (((_deg_to_nak_index moon_lon).1 % 9).toNat) "") *
          (1 - (_deg_to_nak_index moon_lon).2) * (1461 / 4),
      VIM_YEARS (VIM_ORDER.getD (((_deg_to_nak_index moon_lon).1 % 9).toNat) "") *
        (1 - (_deg_to_nak_index moon_lon).2)⟩, ?_, rfl, ?_, ?_⟩
  · unfold compute_vimshottari_dasa_heuristic dasaFrom
    rw [hlen]
    exact hs.2.2.2.2
  · have hlt := hfrac.2.2.2.2.2
    exact mul_pos hY (by linarith)
  · have hge := hfrac.2.2.2.2.1
    nlinarith [hY]

theorem first_dasa_duration_spec_witness :
    ((0 : ℚ) ≤ 100 ∧ (100 : ℚ) < 360) ∧
    (∃ pd, (compute_vimshottari_dasa_heuristic 100 0).sequence.head? = some pd ∧
      pd.duration_years = VIM_YEARS pd.name * (1 - (_deg_to_nak_index 100).2) ∧
      0 < pd.duration_years ∧ pd.duration_years ≤ VIM_YEARS pd.name) :=
  ⟨⟨by norm_num, by norm_num⟩,
   first_dasa_duration_spec 100 0 (by norm_num) (by norm_num)⟩

/-- **C10**: on a rasi chart whose planets mapping has no `"Moon"`
entry, `analyze_chart_for_yogas_and_dasas` returns the
`Unknown (no Moon position)` dasa stub with an empty sequence (and no
`remaining_years` key), while still returning the yoga list computed
from the remaining planets. -/
theorem analyze_no_moon_spec (rasi : RasiChart) (birth_dt : ℚ)
    (h : rasi.planets.lookup "Moon" = Option.none) :
    analyze_chart_for_yogas_and_dasas rasi birth_dt =
      { yogas := detect_common_yogas rasi
        dasas := { current := "Unknown (no Moon position)"
                   remaining_years := Option.none
                   sequence := [] } } := by
  simp [analyze_chart_for_yogas_and_dasas, h]

theorem analyze_no_moon_spec_witness :
    (RasiChart.mk [("Sun", RasiInfo.mk 100 4 10)] 0).planets.lookup "Moon" =
        Option.none ∧
    analyze_chart_for_yogas_and_dasas
        (RasiChart.mk [("Sun", RasiInfo.mk 100 4 10)] 0) 0 =
      { yogas := detect_common_yogas
          (RasiChart.mk [("Sun", RasiInfo.mk 100 4 10)] 0)
        dasas := { current := "Unknown (no Moon position)"
                   remaining_years := Option.none
                   sequence := [] } } :=
  ⟨by simp [List.lookup],
   analyze_no_moon_spec (RasiChart.mk [("Sun", RasiInfo.mk 100 4 10)] 0) 0
     (by simp [List.lookup])⟩

lemma fallbackBullets_length {l : List (String × PyVal)} {acc : List String}
    (h : acc.length < 6) : (fallbackBullets l acc).length ≤ 6 := by
  induction l generalizing acc with
  | nil => simpa [fallbackBullets] using h.le
  | cons hd tl ih =>
    obtain ⟨p, info⟩ := hd
    simp only [fallbackBullets]
    split
    · simp only [List.length_append, List.length_singleton]
      omega
    · rename_i hlen
      apply ih
      simp only [List.length_append, List.length_singleton] at hlen ⊢
      omega

/-- **C6**: when no LLM is reachable (`_call_llm` returns `None` on
every attempt), `generate_analysis` returns the local fallback: a dict
with exactly the keys `headline`, `bullets`, `narrative`, `yogas`,
`dasas`, where `yogas` is the empty list, `dasas` the empty dict and
`bullets` has at most 6 entries; and the fallback is deterministic:
equal structured payloads give equal results. -/
theorem generate_analysis_fallback_spec (scan : String → Option PyVal)
    (asksJson : String → Bool) (callLLM : ℕ → Option String)
    (structured structured2 : PyVal)
    (hno : ∀ n, callLLM n = Option.none) :
    generate_analysis scan asksJson callLLM structured =
      _fallback_text structured ∧
    pyKeys (_fallback_text structured) =
      ["headline", "bullets", "narrative", "yogas", "dasas"] ∧
    pyGet (_fallback_text structured) "yogas" = .list [] ∧
    pyGet (_fallback_text structured) "dasas" = .dict [] ∧
    (∃ bs, pyGet (_fallback_text structured) "bullets" = .list bs ∧
      bs.length ≤ 6) ∧
    (structured = structured2 →
      generate_analysis scan asksJson callLLM structured =
        generate_analysis scan asksJson callLLM structured2) := by
  refine ⟨?_, rfl, rfl, rfl, ?_, ?_⟩
  · simp [generate_analysis, _extract_json_from_text, hno]
  · refine ⟨(fallbackBullets
      (pyItems (pyGetD structured "rasi" (.dict []))) []).map .str, rfl, ?_⟩
    rw [List.length_map]
    exact fallbackBullets_length (by simp)
  · intro h
    rw [h]

theorem generate_analysis_fallback_spec_witness :
    (∀ n : ℕ, (fun _ : ℕ => (Option.none : Option String)) n = Option.none) ∧
    (generate_analysis (fun _ => Option.none) (fun _ => false)
        (fun _ => Option.none) (.dict []) =
      _fallback_text (.dict []) ∧
    pyKeys (_fallback_text (.dict [])) =
      ["headline", "bullets", "narrative", "yogas", "dasas"] ∧
    pyGet (_fallback_text (.dict [])) "yogas" = .list [] ∧
    pyGet (_fallback_text (.dict [])) "dasas" = .dict [] ∧
    (∃ bs, pyGet (_fallback_text (.dict [])) "bullets" = .list bs ∧
      bs.length ≤ 6) ∧
    ((.dict [] : PyVal) = .dict [] →
      generate_analysis (fun _ => Option.none) (fun _ => false)
          (fun _ => Option.none) (.dict []) =
        generate_analysis (fun _ => Option.none) (fun _ => false)
          (fun _ => Option.none) (.dict []))) :=
  ⟨fun _ => rfl,
   generate_analysis_fallback_spec (fun _ => Option.none) (fun _ => false)
     (fun _ => Option.none) (.dict []) (.dict []) (fun _ => rfl)⟩

/-- **C5 (counterexample)**: the payload built by `format_structured`
does NOT carry `yogas`/`dasas` keys — the claim that it returns exactly
the keys `meta, rasi, asc, navamsa, yogas, dasas` fails at any input;
here at empty rasi/nav/meta dicts.  (The caller, streamlit_app.py,
merges `yogas` and `dasas` into the payload afterwards.) -/
theorem format_structured_keys_counterexample :
    pyKeys (format_structured (.dict []) (.dict []) (.dict [])) =
      ["meta", "rasi", "asc", "navamsa"] ∧
    "yogas" ∉ pyKeys (format_structured (.dict []) (.dict []) (.dict [])) ∧
    "dasas" ∉ pyKeys (format_structured (.dict []) (.dict []) (.dict [])) := by
  refine ⟨rfl, ?_, ?_⟩ <;> decide

/-- **C5 (amended)**: for every rasi chart, navamsa chart and metadata
dict, `format_structured` returns the payload with exactly the keys
`meta`, `rasi` (mapping each planet to an object with exactly the keys
`lon`, `rasi`, `deg`), `asc` and `navamsa`; the `yogas` and `dasas`
keys of the payload sent to the LLM are merged in by the caller. -/
theorem format_structured_keys (rasi nav meta : PyVal) :
    pyKeys (format_structured rasi nav meta) =
      ["meta", "rasi", "asc", "navamsa"] ∧
    ∀ pr ∈ pyItems (pyGet (format_structured rasi nav meta) "rasi"),
      pyKeys pr.2 = ["lon", "rasi", "deg"] := by
  refine ⟨rfl, ?_⟩
  intro pr hpr
  simp only [format_structured, pyGet, pyItems, List.lookup] at hpr
  obtain ⟨x, _, rfl⟩ := List.mem_map.mp hpr
  rfl

theorem format_structured_keys_witness :
    (("Sun", PyVal.dict
        [("lon", .num 100), ("rasi", .num 4), ("deg", .num 10)]) ∈
      pyItems (pyGet (format_structured
        (.dict [("planets", .dict [("Sun", .dict
            [("lon", .num 100), ("rasi", .num 4),
             ("degree_in_sign", .num 10)])]),
          ("asc", .num 5)])
        (.dict []) (.dict [])) "rasi")) ∧
    pyKeys (PyVal.dict
        [("lon", .num 100), ("rasi", .num 4), ("deg", .num 10)]) =
      ["lon", "rasi", "deg"] := by
  have hmem : ("Sun", PyVal.dict
      [("lon", .num 100), ("rasi", .num 4), ("deg", .num 10)]) ∈
      pyItems (pyGet (format_structured
        (.dict [("planets", .dict [("Sun", .dict
            [("lon", .num 100), ("rasi", .num 4),
             ("degree_in_sign", .num 10)])]),
          ("asc", .num 5)])
        (.dict []) (.dict [])) "rasi") := by
    exact List.Mem.head _
  exact ⟨hmem, (format_structured_keys _ _ _).2 _ hmem⟩

end Sahadev
